import Mathlib

/-!
Verification development for the `TelegramMiniGame` browser framework
(`game-interface.js`, `game-interface_working.js`, and the unnamed legacy
copy `part_000`).  The JavaScript class is shallowly embedded: JS numbers
are modelled as exact rationals plus an explicit `NaN` value, JS `null`
as `Option.none`, and the observable behaviour of `sendResult` (console
output, `localStorage` writes, `tg.sendData`, alerts, scheduled closes and
network requests) as an explicit list of effects.  Host-bridge calls
(`tg.sendData`), `localStorage.setItem` and `alert` are modelled as
non-throwing; the one exception modelled is the `TypeError` raised by the
re-assignment of the `const resultString` binding in the oversized branch
of `sendResult`, which is genuinely raised by the JavaScript engine.
-/

/-- A JavaScript number: either NaN or an exact rational.  (The repository
performs no float-precision-sensitive arithmetic; rationals model the
arithmetic it does perform - `Math.floor`, `*`, `-` - exactly on the
integer-valued data the code handles.) -/
inductive JNum where
  | nan : JNum
  | num : ℚ → JNum
deriving DecidableEq, Repr

namespace JNum

/-- JS multiplication: NaN propagates. -/
def jmul : JNum → JNum → JNum
  | num a, num b => num (a * b)
  | _, _ => nan

/-- JS subtraction: NaN propagates. -/
def jsub : JNum → JNum → JNum
  | num a, num b => num (a - b)
  | _, _ => nan

/-- `Math.floor`: NaN maps to NaN.  (`Rat.floor` is the floor of a
rational.) -/
def jfloor : JNum → JNum
  | num a => num (Rat.floor a)
  | nan => nan

/-- JS truthiness of a number: `0` and `NaN` are falsy. -/
def truthy : JNum → Bool
  | num a => a != 0
  | nan => false

end JNum

/-- JS truthiness of a nullable number (`null` is falsy). -/
def jnumOptTruthy : Option JNum → Bool
  | some n => n.truthy
  | none => false

/-- JS truthiness of a nullable string (`null` and `''` are falsy). -/
def strOptTruthy : Option String → Bool
  | some s => s != ""
  | none => false

/-- JS `a || b` on nullable strings: a falsy left operand (absent/`null`
or the empty string) falls through to the right operand. -/
def jsOrStr (a b : Option String) : Option String :=
  match a with
  | some s => if s = "" then b else some s
  | none => b

/-- JS `s || d` for a nullable string with a (truthy) string default. -/
def jsOrDefault (a : Option String) (d : String) : String :=
  match a with
  | some s => if s = "" then d else s
  | none => d

/-- Template-literal rendering of a nullable string
(`` `${x}` `` prints `null` as the text `"null"`). -/
def jsTemplateStr : Option String → String
  | some s => s
  | none => "null"

/-- Numeric value of a list of decimal digit characters. -/
def natOfDigits (ds : List Char) : ℕ :=
  ds.foldl (fun acc c => 10 * acc + (c.toNat - 48)) 0

/-- JS `parseInt` (decimal): trims whitespace, accepts an optional sign
followed by leading decimal digits, ignores trailing garbage, and yields
`NaN` when no digit is found.  (The hex/exponent forms the repository
never passes are not modelled.) -/
def jsParseInt (s : String) : JNum :=
  let cs := s.toList.dropWhile Char.isWhitespace
  match cs with
  | '-' :: rest =>
      match rest.takeWhile Char.isDigit with
      | [] => JNum.nan
      | ds => JNum.num (-(natOfDigits ds : ℚ))
  | '+' :: rest =>
      match rest.takeWhile Char.isDigit with
      | [] => JNum.nan
      | ds => JNum.num (natOfDigits ds)
  | _ =>
      match cs.takeWhile Char.isDigit with
      | [] => JNum.nan
      | ds => JNum.num (natOfDigits ds)

/-- JS `parseFloat` (plain decimal): optional sign, integer digits, an
optional fractional part, trailing garbage ignored; `NaN` when no digit
is found.  (Exponent notation, which the repository never passes, is not
modelled.) -/
def jsParseFloat (s : String) : JNum :=
  let core : List Char → JNum := fun cs =>
    let ip := cs.takeWhile Char.isDigit
    let rest := cs.drop ip.length
    let fp :=
      match rest with
      | '.' :: r => r.takeWhile Char.isDigit
      | _ => []
    if ip.isEmpty ∧ fp.isEmpty then JNum.nan
    else
      JNum.num ((natOfDigits ip : ℚ) + (natOfDigits fp : ℚ) / (10 : ℚ) ^ fp.length)
  match s.toList.dropWhile Char.isWhitespace with
  | '-' :: rest =>
      match core rest with
      | JNum.nan => JNum.nan
      | JNum.num q => JNum.num (-q)
  | '+' :: rest => core rest
  | cs => core cs

/-- A URL query string, already split into (key, value) pairs in order. -/
def Query := List (String × String)

/-- `URLSearchParams.get`: the value of the first pair with the given key,
or `null` when absent. -/
def qGet (qs : Query) (k : String) : Option String :=
  (List.find? (fun p => p.1 == k) qs).map (·.2)

/-- `URLSearchParams.has`. -/
def qHas (qs : Query) (k : String) : Bool :=
  (qGet qs k).isSome

/-- The Telegram user record from `tg.initDataUnsafe.user`. -/
structure TgUser where
  id : ℤ
  language_code : Option String
deriving DecidableEq, Repr

/-- The `this.config` record (the fields the framework itself reads and
writes; `version`, the boolean feature flags and `custom` are carried
unchanged from the constructor and are omitted except where serialized). -/
structure Config where
  gameId : Option String
  gameName : Option String
  difficulty : JNum
  timeLimit : Option JNum
  timeModifier : JNum
  hintsEnabled : Bool
  hintsCount : JNum
  scoreModifier : JNum
  sessionId : Option String
  userId : Option ℤ
  language : String
deriving DecidableEq, Repr

/-- The constructor's initial `this.config` (before `parseInputParams`).
`gameId`/`gameName` come from the caller's `gameConfig` (`none` models an
absent/undefined field). -/
def initConfig (gameId gameName : Option String) : Config :=
  { gameId := gameId
    gameName := gameName
    difficulty := JNum.num 1
    timeLimit := none
    timeModifier := JNum.num 1
    hintsEnabled := true
    hintsCount := JNum.num 3
    scoreModifier := JNum.num 1
    sessionId := none
    userId := none
    language := "en" }

/-- A JavaScript runtime error observable from `parseInputParams`
(reading a property of `null`). -/
inductive JSErr where
  | typeError : JSErr
deriving DecidableEq, Repr

/-- `'en-US'.split('-')[0].toLowerCase()` normalisation: the prefix up
to the first `'-'`, lowercased (ASCII lowering; the language codes this
code sees are ASCII). -/
def normalizeLang (s : String) : String :=
  String.mk ((s.toList.takeWhile (fun c => c ≠ '-')).map Char.toLower)

/-- The value held by `this.config.language` just before the
`split('-')` normalisation line (`cLang` is the incoming
`this.config.language`, `'en'` when called from the constructor):
`none` models the JS `null` produced when
`urlParams.get('lang') || urlParams.get('language')` evaluates to
`null` (lang present but empty, language absent). -/
def langBeforeNormalize (cLang : String) (qs : Query) (user : Option TgUser) :
    Option String :=
  let l1 : Option String :=
    if qHas qs "lang" || qHas qs "language" then
      jsOrStr (qGet qs "lang") (qGet qs "language")
    else some cLang
  match user with
  | some u =>
      if ¬ (qHas qs "lang") ∧ ¬ (qHas qs "language") then
        some (jsOrDefault u.language_code "en")
      else l1
  | none => l1

/-- `TelegramMiniGame.parseInputParams` (the current `game-interface.js`
version): overrides the constructor config field by field from the query
string, resolves the language from the parameters / the Telegram user,
normalises it, and finally applies the time modifier to a truthy
`timeLimit`.  Returns `Except.error .typeError` in the one case in which
the JS code throws (`this.config.language` is `null` at the
`split('-')` line). -/
def parseInputParams (c : Config) (qs : Query) (user : Option TgUser) :
    Except JSErr Config :=
  let difficulty := if qHas qs "difficulty" then jsParseInt ((qGet qs "difficulty").getD "") else c.difficulty
  let timeLimit := if qHas qs "timeLimit" then some (jsParseInt ((qGet qs "timeLimit").getD "")) else c.timeLimit
  let timeModifier := if qHas qs "timeModifier" then jsParseFloat ((qGet qs "timeModifier").getD "") else c.timeModifier
  let hintsCount := if qHas qs "hints" then jsParseInt ((qGet qs "hints").getD "") else c.hintsCount
  let sessionId := if qHas qs "sessionId" then qGet qs "sessionId" else c.sessionId
  let scoreModifier := if qHas qs "scoreModifier" then jsParseFloat ((qGet qs "scoreModifier").getD "") else c.scoreModifier
  let userId := match user with
    | some u => some u.id
    | none => c.userId
  match langBeforeNormalize c.language qs user with
  | none => Except.error JSErr.typeError
  | some langRaw =>
      let language := normalizeLang langRaw
      let timeLimit' :=
        if jnumOptTruthy timeLimit then
          some (JNum.jfloor (JNum.jmul ((timeLimit).getD JNum.nan) timeModifier))
        else timeLimit
      Except.ok
        { c with
          difficulty := difficulty
          timeLimit := timeLimit'
          timeModifier := timeModifier
          hintsCount := hintsCount
          scoreModifier := scoreModifier
          sessionId := sessionId
          userId := userId
          language := language }

/-- Modelled from the spec/claim wording for C3 ("configuration equal to
the constructor defaults overridden pointwise by the parameters that are
present ... language taken from the lang or language parameter if
present, otherwise the Telegram user's language_code, otherwise 'en',
then truncated at the first '-' and lowercased"), read with JS `||`
semantics for "the lang or language parameter" and made total by
defaulting to `'en'` in the corner case in which the code throws.
The claim does not mention `userId`; it is taken from the user record as
the code does, so that whole configurations can be compared. -/
def specParseConfig (c : Config) (qs : Query) (user : Option TgUser) : Config :=
  let language := normalizeLang <|
    if qHas qs "lang" || qHas qs "language" then
      match jsOrStr (qGet qs "lang") (qGet qs "language") with
      | some s => s
      | none => "en"
    else
      match user with
      | some u => jsOrDefault u.language_code "en"
      | none => "en"
  let timeLimit := if qHas qs "timeLimit" then some (jsParseInt ((qGet qs "timeLimit").getD "")) else c.timeLimit
  let timeModifier := if qHas qs "timeModifier" then jsParseFloat ((qGet qs "timeModifier").getD "") else c.timeModifier
  { c with
    difficulty := if qHas qs "difficulty" then jsParseInt ((qGet qs "difficulty").getD "") else c.difficulty
    timeLimit :=
      if jnumOptTruthy timeLimit then
        some (JNum.jfloor (JNum.jmul (timeLimit.getD JNum.nan) timeModifier))
      else timeLimit
    timeModifier := timeModifier
    hintsCount := if qHas qs "hints" then jsParseInt ((qGet qs "hints").getD "") else c.hintsCount
    scoreModifier := if qHas qs "scoreModifier" then jsParseFloat ((qGet qs "scoreModifier").getD "") else c.scoreModifier
    sessionId := if qHas qs "sessionId" then qGet qs "sessionId" else c.sessionId
    userId := match user with
      | some u => some u.id
      | none => c.userId
    language := language }

/-- `TelegramMiniGame.getRating`. -/
def getRating (performance : ℚ) : String :=
  if performance ≥ 95 then "S"
  else if performance ≥ 85 then "A"
  else if performance ≥ 75 then "B"
  else if performance ≥ 60 then "C"
  else if performance ≥ 40 then "D"
  else "F"

/-- Rank of a grade under the ordering F < D < C < B < A < S (any other
string is given the bottom rank). -/
def gradeRank (g : String) : ℕ :=
  if g = "S" then 5
  else if g = "A" then 4
  else if g = "B" then 3
  else if g = "C" then 2
  else if g = "D" then 1
  else 0

/-- The `this.state` record.  `status` is a plain JS string, as in the
source; `startTime`/`endTime` are millisecond clock readings (`null`
initially). -/
structure GameState where
  status : String
  score : ℚ
  moves : ℚ
  mistakes : ℚ
  hintsUsed : ℚ
  startTime : Option ℕ
  endTime : Option ℕ
  timeElapsed : ℕ
deriving DecidableEq, Repr

/-- The constructor's initial `this.state`. -/
def initState : GameState :=
  { status := "idle", score := 0, moves := 0, mistakes := 0, hintsUsed := 0
    startTime := none, endTime := none, timeElapsed := 0 }

/-- The `state:` snapshot embedded in a milestone. -/
structure MilestoneState where
  score : ℚ
  moves : ℚ
  mistakes : ℚ
  hintsUsed : ℚ
deriving DecidableEq, Repr

/-- A recorded milestone.  The base class's `captureGameState()` returns
`{}` and `metadata` defaults to `{}`; those two game-specific payloads
are serialized as empty objects and carry no data here. -/
structure Milestone where
  name : String
  timestamp : ℕ
  gameTime : ℕ
  state : MilestoneState
deriving DecidableEq, Repr

/-- The summary object built by `getMilestonesSummary`. -/
structure MilestonesSummary where
  count : ℕ
  milestones : List Milestone
  firstMilestone : Milestone
  lastMilestone : Milestone
deriving DecidableEq, Repr

/-- `TelegramMiniGame.getMilestonesSummary`: `null` for an empty list,
otherwise the count, the list itself, `milestones[0]` and
`milestones[milestones.length - 1]`. -/
def getMilestonesSummary : List Milestone → Option MilestonesSummary
  | [] => none
  | m :: ms =>
      some
        { count := (m :: ms).length
          milestones := m :: ms
          firstMilestone := m
          lastMilestone := (m :: ms).getLast (by simp) }

/-- The milestone object built by `recordMilestone` at clock reading
`now`: `gameTime` is `floor((now - startTime)/1000)` when `startTime` is
truthy (a non-zero number) and `0` otherwise. -/
def mkMilestone (name : String) (now : ℕ) (st : GameState) : Milestone :=
  { name := name
    timestamp := now
    gameTime :=
      match st.startTime with
      | some t => if t ≠ 0 then (now - t) / 1000 else 0
      | none => 0
    state :=
      { score := st.score, moves := st.moves
        mistakes := st.mistakes, hintsUsed := st.hintsUsed } }

/-- A game object: the mutable session state plus the milestone log. -/
structure Game where
  state : GameState
  milestones : List Milestone
deriving DecidableEq, Repr

/-- The object right after the constructor ran. -/
def initGame : Game := { state := initState, milestones := [] }

/-- The state-affecting operations of the class.  All other methods
(`t`, `getRating`, `formatTime`, `generateResult`,
`getMilestonesSummary`, `sendResult`, `sendEvent`, `applyTranslations`,
...) never write `this.state` or `this.milestones` and are embedded
below as pure functions. -/
inductive Op where
  | start (now : ℕ)
  | ende (success : Bool) (now : ℕ)
  | recordMilestone (name : String) (now : ℕ)
  | handleExit (confirmExit : Bool) (now : ℕ)
deriving DecidableEq, Repr

/-- `start()`: sets the status to `'playing'` and stamps `startTime`. -/
def startStep (now : ℕ) (g : Game) : Game :=
  { g with state := { g.state with status := "playing", startTime := some now } }

/-- `end(success)`: sets the status to `'completed'`/`'failed'`, stamps
`endTime` and computes `timeElapsed` (a `null` `startTime` coerces to
`0`, as in JS).  The subsequent `generateResult`/`sendResult` calls do
not modify the state and are modelled separately. -/
def endStep (success : Bool) (now : ℕ) (g : Game) : Game :=
  { g with state :=
      { g.state with
        status := if success then "completed" else "failed"
        endTime := some now
        timeElapsed := (now - g.state.startTime.getD 0) / 1000 } }

/-- `recordMilestone(name)`: pushes a milestone onto `this.milestones`
(the analytics `sendEvent` call has no effect on the object). -/
def recordStep (name : String) (now : ℕ) (g : Game) : Game :=
  { g with milestones := g.milestones ++ [mkMilestone name now g.state] }

/-- `handleExit()`: during play, a confirmed exit calls `end(false)`;
otherwise only `tg.close()` is called and the object is unchanged. -/
def exitStep (confirmExit : Bool) (now : ℕ) (g : Game) : Game :=
  if g.state.status = "playing" then
    if confirmExit then endStep false now g else g
  else g

/-- One operation on the game object. -/
def step (g : Game) : Op → Game
  | Op.start now => startStep now g
  | Op.ende success now => endStep success now g
  | Op.recordMilestone name now => recordStep name now g
  | Op.handleExit c now => exitStep c now g

/-- Running a sequence of operations from the freshly constructed
object. -/
def run (ops : List Op) : Game := ops.foldl step initGame

/-- Whether an operation is a `recordMilestone` call. -/
def isRecordOp : Op → Bool
  | Op.recordMilestone _ _ => true
  | _ => false

/-- A JSON value as produced by the objects this code serializes. -/
inductive Json where
  | null : Json
  | bool : Bool → Json
  | num : ℚ → Json
  | str : String → Json
  | arr : List Json → Json
  | obj : List (String × Json) → Json

/-- A decimal digit character. -/
def digitChar (n : ℕ) : Char := Char.ofNat (48 + n)

/-- Hexadecimal digit character. -/
def hexDigit (n : ℕ) : Char :=
  if n < 10 then Char.ofNat (48 + n) else Char.ofNat (87 + n)

/-- Decimal digits of the fraction `r / d` (`r < d`), up to 17 places
(the repository only ever serializes integer-valued numbers, for which
this is exact; JS's shortest-round-trip printing of non-terminating
fractions is approximated by truncation). -/
def fracDigits : ℕ → ℕ → ℕ → List Char
  | _, _, 0 => []
  | r, d, k + 1 =>
      if r = 0 then []
      else digitChar (r * 10 / d) :: fracDigits (r * 10 % d) d k

/-- JS number-to-JSON-text printing (decimal), computed from the
numerator/denominator of the reduced rational. -/
def qToJsonString (q : ℚ) : String :=
  let sign := if q.num < 0 then "-" else ""
  let nn : ℕ := q.num.natAbs
  let ip : ℕ := nn / q.den
  let rem : ℕ := nn % q.den
  let frS :=
    match fracDigits rem q.den 17 with
    | [] => ""
    | ds => "." ++ String.mk ds
  sign ++ toString ip ++ frS

/-- JSON escaping of one character (`JSON.stringify` string rules). -/
def escapeChar (c : Char) : String :=
  if c = '"' then "\\\""
  else if c = '\\' then "\\\\"
  else if c = '\n' then "\\n"
  else if c = '\r' then "\\r"
  else if c = '\t' then "\\t"
  else if c.toNat = 8 then "\\b"
  else if c.toNat = 12 then "\\f"
  else if c.toNat < 32 then
    "\\u00" ++ String.mk [hexDigit (c.toNat / 16), hexDigit (c.toNat % 16)]
  else String.singleton c

/-- Concatenated escapes of a character list. -/
def escListJoin : List Char → String
  | [] => ""
  | c :: cs => escapeChar c ++ escListJoin cs

/-- A JSON string literal with escapes. -/
def jsonQuote (s : String) : String :=
  "\"" ++ escListJoin s.toList ++ "\""

mutual

/-- `JSON.stringify` (compact form, no spacing), structurally over the
`Json` tree. -/
def jsonStringify : Json → String
  | Json.null => "null"
  | Json.bool true => "true"
  | Json.bool false => "false"
  | Json.num q => qToJsonString q
  | Json.str s => jsonQuote s
  | Json.arr xs => "[" ++ jsonStringifyList xs ++ "]"
  | Json.obj fs => "\x7b" ++ jsonStringifyFields fs ++ "\x7d"

/-- Comma-separated serialization of array elements. -/
def jsonStringifyList : List Json → String
  | [] => ""
  | [x] => jsonStringify x
  | x :: y :: xs => jsonStringify x ++ "," ++ jsonStringifyList (y :: xs)

/-- Comma-separated serialization of object fields. -/
def jsonStringifyFields : List (String × Json) → String
  | [] => ""
  | [(k, v)] => jsonQuote k ++ ":" ++ jsonStringify v
  | (k, v) :: f :: fs =>
      jsonQuote k ++ ":" ++ jsonStringify v ++ "," ++ jsonStringifyFields (f :: fs)

end

/-- JSON value of a nullable string (JS `null` serializes as `null`). -/
def optStrJson : Option String → Json
  | some s => Json.str s
  | none => Json.null

/-- JSON value of a nullable integer id. -/
def optIntJson : Option ℤ → Json
  | some i => Json.num i
  | none => Json.null

/-- JSON value of a JS number: `JSON.stringify(NaN)` is `null`. -/
def jnumJson : JNum → Json
  | JNum.num q => Json.num q
  | JNum.nan => Json.null

/-- JSON value of a nullable JS number. -/
def optJnumJson : Option JNum → Json
  | some n => jnumJson n
  | none => Json.null

/-- The `modifiers:` sub-object of a result. -/
structure GRModifiers where
  timeModifier : JNum
  scoreModifier : JNum
  hintsEnabled : Bool
deriving DecidableEq, Repr

/-- The standardized result object built by `generateResult` (the fields
the framework itself writes; `gameData` is the base class's `{}`). -/
structure GameRes where
  sessionId : Option String
  gameId : Option String
  gameName : Option String
  userId : Option ℤ
  timestamp : String
  success : Bool
  status : String
  score : ℚ
  finalScore : JNum
  moves : ℚ
  mistakes : ℚ
  hintsUsed : ℚ
  timeElapsed : ℚ
  timeLimit : Option JNum
  timeRemaining : Option JNum
  performance : ℚ
  rating : String
  difficulty : JNum
  language : String
  modifiers : GRModifiers
  optimal : Bool
  achievements : List String
  milestones : Option MilestonesSummary
  outputString : String
deriving DecidableEq, Repr

/-- `TelegramMiniGame.formatTime`. -/
def formatTime (seconds : ℕ) : String :=
  let mins := seconds / 60
  let secs := seconds % 60
  if mins > 0 then toString mins ++ "m " ++ toString secs ++ "s"
  else toString secs ++ "s"

/-- `difficultyNames[this.config.difficulty - 1]` - an out-of-range or
non-integer index yields JS `undefined`, which a template literal prints
as the text `"undefined"`. -/
def difficultyName (d : JNum) : String :=
  match d with
  | JNum.num q =>
      if q = 1 then "Easy"
      else if q = 2 then "Medium"
      else if q = 3 then "Hard"
      else if q = 4 then "Expert"
      else "undefined"
  | JNum.nan => "undefined"

/-- Template-literal rendering of a possibly-undefined `gameName`. -/
def jsTemplateUndef : Option String → String
  | some s => s
  | none => "undefined"

/-- `TelegramMiniGame.generateOutputString`. -/
def generateOutputString (success : Bool) (cfg : Config) (st : GameState) : String :=
  let emoji := if success then "🎉" else "😔"
  let statusTxt := if success then "Completed" else "Failed"
  let base :=
    emoji ++ " " ++ jsTemplateUndef cfg.gameName ++ " - " ++ statusTxt ++ "\n"
      ++ "📊 Difficulty: " ++ difficultyName cfg.difficulty ++ "\n"
      ++ "⭐ Score: " ++ qToJsonString st.score ++ "\n"
      ++ "🎯 Moves: " ++ qToJsonString st.moves ++ "\n"
  let base := if st.mistakes > 0 then base ++ "❌ Mistakes: " ++ qToJsonString st.mistakes ++ "\n" else base
  let base := if st.timeElapsed ≠ 0 then base ++ "⏱️ Time: " ++ formatTime st.timeElapsed ++ "\n" else base
  if st.hintsUsed > 0 then base ++ "💡 Hints used: " ++ qToJsonString st.hintsUsed ++ "\n" else base

/-- `TelegramMiniGame.generateResult` (current `game-interface.js`
version).  `optimalScore` is the value returned by the overridable
`getOptimalScore()` hook (`null` in the base class); `optimal` and
`achievements` are the values of the overridable `isOptimalSolution()` /
`checkAchievements()` hooks (`false` / `[]` in the base class); `nowIso`
is `new Date().toISOString()`. -/
def generateResult (success : Bool) (st : GameState) (cfg : Config)
    (optimalScore : Option ℚ) (milestones : List Milestone)
    (optimal : Bool) (achievements : List String) (nowIso : String) : GameRes :=
  let performanceRaw : ℚ :=
    match optimalScore with
    | some q => if q ≠ 0 then min 100 (st.score / q * 100) else 100
    | none => 100
  { sessionId := cfg.sessionId
    gameId := cfg.gameId
    gameName := cfg.gameName
    userId := cfg.userId
    timestamp := nowIso
    success := success
    status := st.status
    score := st.score
    finalScore := JNum.jfloor (JNum.jmul (JNum.num st.score) cfg.scoreModifier)
    moves := st.moves
    mistakes := st.mistakes
    hintsUsed := st.hintsUsed
    timeElapsed := (st.timeElapsed : ℚ)
    timeLimit := cfg.timeLimit
    timeRemaining :=
      if jnumOptTruthy cfg.timeLimit then
        some (JNum.jsub (cfg.timeLimit.getD JNum.nan) (JNum.num (st.timeElapsed : ℚ)))
      else none
    performance := min 100 (max 0 performanceRaw)
    rating := getRating performanceRaw
    difficulty := cfg.difficulty
    language := cfg.language
    modifiers :=
      { timeModifier := cfg.timeModifier
        scoreModifier := cfg.scoreModifier
        hintsEnabled := cfg.hintsEnabled }
    optimal := optimal
    achievements := achievements
    milestones := getMilestonesSummary milestones
    outputString := generateOutputString success cfg st }

/-- One observable action of `sendResult`.  `console.log`/`warn`/`error`
and `alert` carry an abbreviated message text; `sendData`,
`localStorage.setItem`, `postMessage` and `fetch` carry their payloads.
`scheduleClose` is an asynchronously scheduled `tg.close()` - via
`setTimeout(..., ms)` or as a fetch continuation - while `closeNow` is a
synchronous `tg.close()` call. -/
inductive Effect where
  | log (msg : String)
  | warn (msg : String)
  | errorLog (msg : String)
  | sendData (payload : String)
  | storageSet (key value : String)
  | alertShow (msg : String)
  | postMessage (msgType : String)
  | fetchStart (url payload : String)
  | scheduleClose (delayMs : ℕ)
  | closeNow
deriving DecidableEq, Repr

/-- The compact result object built inside the current `sendResult`
(`game-interface.js`): essential fields only, `achievements` defaulted
to `[]` by `||`, milestones reduced to `milestoneCount` via
`result.milestones?.count || 0`.  A `none` `gameId`/`gameName` models a
JS `undefined` field, which `JSON.stringify` omits. -/
def compactResultJson (r : GameRes) : Json :=
  Json.obj <|
    [("sessionId", optStrJson r.sessionId)]
    ++ (match r.gameId with
        | some g => [("gameId", Json.str g)]
        | none => [])
    ++ (match r.gameName with
        | some g => [("gameName", Json.str g)]
        | none => [])
    ++ [("userId", optIntJson r.userId),
        ("timestamp", Json.str r.timestamp),
        ("success", Json.bool r.success),
        ("status", Json.str r.status),
        ("score", Json.num r.score),
        ("finalScore", jnumJson r.finalScore),
        ("moves", Json.num r.moves),
        ("mistakes", Json.num r.mistakes),
        ("hintsUsed", Json.num r.hintsUsed),
        ("timeElapsed", Json.num r.timeElapsed),
        ("timeLimit", optJnumJson r.timeLimit),
        ("timeRemaining", optJnumJson r.timeRemaining),
        ("performance", Json.num r.performance),
        ("rating", Json.str r.rating),
        ("difficulty", jnumJson r.difficulty),
        ("language", Json.str r.language),
        ("optimal", Json.bool r.optimal),
        ("achievements", Json.arr (r.achievements.map Json.str)),
        ("milestoneCount", Json.num ((r.milestones.map (fun s => (s.count : ℚ))).getD 0))]

/-- The emergency ultra-compact object of the oversized branch.  The
branch assigns its serialization to the `const` binding `resultString`,
so in execution this value is never produced: the assignment throws
first (see `sendResult`). -/
def ultraCompactJson (r : GameRes) : Json :=
  Json.obj <|
    [("sessionId", optStrJson r.sessionId)]
    ++ (match r.gameId with
        | some g => [("gameId", Json.str g)]
        | none => [])
    ++ [("userId", optIntJson r.userId),
        ("success", Json.bool r.success),
        ("score", Json.num r.score),
        ("moves", Json.num r.moves),
        ("timeElapsed", Json.num r.timeElapsed),
        ("rating", Json.str r.rating),
        ("difficulty", jnumJson r.difficulty)]

/-- Serialization of one milestone (`gameData`/`metadata` are the base
class's empty objects). -/
def milestoneJson (m : Milestone) : Json :=
  Json.obj
    [("name", Json.str m.name),
     ("timestamp", Json.num m.timestamp),
     ("gameTime", Json.num m.gameTime),
     ("state", Json.obj
        [("score", Json.num m.state.score),
         ("moves", Json.num m.state.moves),
         ("mistakes", Json.num m.state.mistakes),
         ("hintsUsed", Json.num m.state.hintsUsed)]),
     ("gameData", Json.obj []),
     ("metadata", Json.obj [])]

/-- Serialization of a milestone summary. -/
def milestonesSummaryJson (s : MilestonesSummary) : Json :=
  Json.obj
    [("count", Json.num s.count),
     ("milestones", Json.arr (s.milestones.map milestoneJson)),
     ("firstMilestone", milestoneJson s.firstMilestone),
     ("lastMilestone", milestoneJson s.lastMilestone)]

/-- The full result object as serialized by `JSON.stringify(result)` in
the legacy variants (`part_000`, `game-interface_working.js`): every
`generateResult` field in source order (`gameData` is the base class's
`{}`). -/
def fullResultJson (r : GameRes) : Json :=
  Json.obj <|
    [("sessionId", optStrJson r.sessionId)]
    ++ (match r.gameId with
        | some g => [("gameId", Json.str g)]
        | none => [])
    ++ (match r.gameName with
        | some g => [("gameName", Json.str g)]
        | none => [])
    ++ [("userId", optIntJson r.userId),
        ("timestamp", Json.str r.timestamp),
        ("success", Json.bool r.success),
        ("status", Json.str r.status),
        ("score", Json.num r.score),
        ("finalScore", jnumJson r.finalScore),
        ("moves", Json.num r.moves),
        ("mistakes", Json.num r.mistakes),
        ("hintsUsed", Json.num r.hintsUsed),
        ("timeElapsed", Json.num r.timeElapsed),
        ("timeLimit", optJnumJson r.timeLimit),
        ("timeRemaining", optJnumJson r.timeRemaining),
        ("performance", Json.num r.performance),
        ("rating", Json.str r.rating),
        ("difficulty", jnumJson r.difficulty),
        ("language", Json.str r.language),
        ("modifiers", Json.obj
          [("timeModifier", jnumJson r.modifiers.timeModifier),
           ("scoreModifier", jnumJson r.modifiers.scoreModifier),
           ("hintsEnabled", Json.bool r.modifiers.hintsEnabled)]),
        ("optimal", Json.bool r.optimal),
        ("achievements", Json.arr (r.achievements.map Json.str)),
        ("milestones",
          match r.milestones with
          | some s => milestonesSummaryJson s
          | none => Json.null),
        ("gameData", Json.obj []),
        ("outputString", Json.str r.outputString)]

/-- The validity check at the top of `sendResult`:
`!result.sessionId || !result.gameId` rejects the result. -/
def validResult (r : GameRes) : Bool :=
  strOptTruthy r.sessionId && strOptTruthy r.gameId

/-- Environment of a `sendResult` call: whether
`typeof this.tg.sendData === 'function'`, the `this.config.sessionId`
used for the fallback storage key, and the clock readings used for the
error key / `last_send_time`. -/
structure SendEnv where
  tgHasSendData : Bool
  configSessionId : Option String
  nowMs : ℕ
  nowIso : String
deriving DecidableEq, Repr

/-- The `catch (e)` block of the current `sendResult`: log, store an
error record under `game_result_error_<Date.now()>`, alert.  The only
exception reaching it in this model is the `TypeError` from the
re-assignment of the `const resultString` in the oversized branch. -/
def catchTrace (r : GameRes) (env : SendEnv) : List Effect :=
  [Effect.errorLog "Error sending result",
   Effect.storageSet ("game_result_error_" ++ toString env.nowMs)
     (jsonStringify (Json.obj
       [("error", Json.str "Assignment to constant variable."),
        ("result", Json.obj
          [("sessionId", optStrJson r.sessionId),
           ("gameId", optStrJson r.gameId),
           ("score", Json.num r.score)])])),
   Effect.alertShow "Error sending result. Data saved locally for recovery."]

/-- `TelegramMiniGame.sendResult`, current `game-interface.js` version.
Control flow of the source: validate; serialize the compact result into
the `const resultString`; if it exceeds 4096 bytes, log the error and
attempt `resultString = JSON.stringify(ultraCompact)` - an assignment to
a `const` binding, which throws a `TypeError` that the enclosing `catch`
turns into an error-keyed `localStorage` record plus a recovery alert;
otherwise either hand the string to `tg.sendData` once (after two debug
`localStorage` writes) or, when the bridge lacks `sendData`, fall back
to two `localStorage` writes and a completion alert. -/
def sendResult (r : GameRes) (env : SendEnv) : List Effect :=
  [Effect.log "Sending result"] ++
  if ¬ validResult r then
    [Effect.errorLog "Invalid result: missing sessionId or gameId"]
  else
    let resultString := jsonStringify (compactResultJson r)
    [Effect.log "Result size"] ++
    if resultString.length > 4096 then
      [Effect.errorLog "Result too large"] ++ catchTrace r env
    else
      [Effect.log "Result validated"] ++
      if env.tgHasSendData then
        [Effect.log "Calling Telegram.WebApp.sendData()",
         Effect.storageSet "game_result_latest" resultString,
         Effect.storageSet "last_send_time" env.nowIso,
         Effect.sendData resultString,
         Effect.log "Data sent! Telegram will close WebApp automatically."]
      else
        [Effect.warn "Telegram.WebApp.sendData() not available",
         Effect.log "Saving to localStorage instead",
         Effect.storageSet ("game_result_" ++ jsTemplateStr env.configSessionId) resultString,
         Effect.storageSet "game_result_latest" resultString,
         Effect.alertShow "Game completed! Result saved to localStorage (testing mode)"]

namespace Part000

/-- Environment of the legacy (`src/unnamed/part_000`) `sendResult`: the
two `try { this.tg.sendData(...) }` blocks succeed or throw together
(`sendDataOk`), and the fallback storage key uses
`this.config.sessionId`. -/
structure SendEnv where
  sendDataOk : Bool
  configSessionId : Option String
deriving DecidableEq, Repr

/-- `TelegramMiniGame.sendResult` of `src/unnamed/part_000`.  Control
flow of the source: Method 1 tries `tg.sendData(JSON.stringify(result))`
(a failure is caught and logged); Method 2, when `this.config.sessionId`
is truthy, starts a `fetch('/api/game-result', ...)` whose settle
continuation runs `setTimeout(() => this.tg.close(), 1000)` on both the
resolve and the reject path; Method 3 stores the serialization in
`localStorage`; finally a second `try { this.tg.sendData(...) }` hands
the very same payload to the bridge again. -/
def sendResult (r : GameRes) (env : SendEnv) : List Effect :=
  let rs := jsonStringify (fullResultJson r)
  [Effect.log "Sending result"] ++
  (if env.sendDataOk then
    [Effect.sendData rs, Effect.log "Result sent via sendData"]
  else
    [Effect.warn "sendData failed"]) ++
  (if strOptTruthy env.configSessionId then
    [Effect.fetchStart "/api/game-result" rs, Effect.scheduleClose 1000]
  else []) ++
  [Effect.storageSet ("game_result_" ++ jsTemplateStr env.configSessionId) rs] ++
  (if env.sendDataOk then
    [Effect.sendData rs]
  else
    [Effect.log "Could not send data to Telegram"])

end Part000

namespace Working

/-- `TelegramMiniGame.sendResult` of `game-interface_working.js`.
Control flow of the source: validate; serialize the full result; when it
exceeds 4096 bytes only warn and continue; if the bridge has `sendData`,
hand the string over once and schedule `tg.close()` via
`setTimeout(..., 1500)`; otherwise fall back to two `localStorage`
writes and a completion alert.  Nothing in the `try` block throws in
this model, so its `catch` is unreachable here. -/
def sendResult (r : GameRes) (env : SendEnv) : List Effect :=
  [Effect.log "Sending result"] ++
  if ¬ validResult r then
    [Effect.errorLog "Invalid result: missing sessionId or gameId"]
  else
    let resultString := jsonStringify (fullResultJson r)
    (if resultString.length > 4096 then
      [Effect.warn "Result size over limit"]
    else []) ++
    [Effect.log "Result validated"] ++
    if env.tgHasSendData then
      [Effect.sendData resultString,
       Effect.log "Result sent via Telegram.WebApp.sendData()",
       Effect.scheduleClose 1500]
    else
      [Effect.warn "Telegram.WebApp.sendData() not available",
       Effect.log "Saving to localStorage instead",
       Effect.storageSet ("game_result_" ++ jsTemplateStr env.configSessionId) resultString,
       Effect.storageSet "game_result_latest" resultString,
       Effect.alertShow "Game completed! Result saved to localStorage (testing mode)"]

end Working

/-- Whether an effect is a `tg.sendData` invocation. -/
def isSendDataE : Effect → Bool
  | Effect.sendData _ => true
  | _ => false

/-- Whether an effect is a synchronous `tg.close()`. -/
def isCloseNowE : Effect → Bool
  | Effect.closeNow => true
  | _ => false

/-- Whether an effect is an asynchronously scheduled `tg.close()`. -/
def isScheduleCloseE : Effect → Bool
  | Effect.scheduleClose _ => true
  | _ => false

/-- Whether an effect starts a network request. -/
def isFetchE : Effect → Bool
  | Effect.fetchStart _ _ => true
  | _ => false

/-- Whether an effect writes the given `localStorage` key. -/
def writesKey (k : String) : Effect → Bool
  | Effect.storageSet key _ => key == k
  | _ => false

/-- Whether an effect writes any `localStorage` key. -/
def isStorageE : Effect → Bool
  | Effect.storageSet _ _ => true
  | _ => false

/-- Whether an effect shows an `alert`. -/
def isAlertE : Effect → Bool
  | Effect.alertShow _ => true
  | _ => false

/-- A string of `n` letters `a` (used for concrete oversized payloads). -/
def repA (n : ℕ) : String := String.mk (List.replicate n 'a')

/-- A concrete valid result whose compact serialization exceeds the
4096-byte ceiling (its `gameName` alone is 4200 bytes). -/
def bigRes : GameRes :=
  { sessionId := some "sess1", gameId := some "hanoi", gameName := some (repA 4200)
    userId := none, timestamp := "2026-01-01T00:00:00.000Z", success := true
    status := "completed", score := 10, finalScore := JNum.num 10, moves := 7
    mistakes := 0, hintsUsed := 0, timeElapsed := 5, timeLimit := none
    timeRemaining := none, performance := 100, rating := "S"
    difficulty := JNum.num 1, language := "en"
    modifiers := { timeModifier := JNum.num 1, scoreModifier := JNum.num 1, hintsEnabled := true }
    optimal := false, achievements := [], milestones := none
    outputString := "done" }

/-- A concrete small valid result. -/
def smallRes : GameRes :=
  { bigRes with gameName := some "Tower of Hanoi" }

/-- A concrete environment whose bridge lacks `sendData`. -/
def envNoSend : SendEnv :=
  { tgHasSendData := false, configSessionId := some "sess1"
    nowMs := 1700000000000, nowIso := "2026-01-01T00:00:00.000Z" }

/-- A concrete environment whose bridge has `sendData`. -/
def envSend : SendEnv :=
  { envNoSend with tgHasSendData := true }

/-- A concrete environment for the legacy `part_000` variant in which
`tg.sendData` succeeds. -/
def envPart000 : Part000.SendEnv :=
  { sendDataOk := true, configSessionId := some "sess1" }

/-- A concrete two-milestone operation sequence. -/
def twoMilestoneOps : List Op :=
  [Op.start 1000, Op.recordMilestone "first" 5000, Op.recordMilestone "second" 9000]

/-- The first milestone recorded by `twoMilestoneOps`. -/
def mOne : Milestone :=
  { name := "first", timestamp := 5000, gameTime := 4
    state := { score := 0, moves := 0, mistakes := 0, hintsUsed := 0 } }

/-- The second milestone recorded by `twoMilestoneOps`. -/
def mTwo : Milestone :=
  { name := "second", timestamp := 9000, gameTime := 8
    state := { score := 0, moves := 0, mistakes := 0, hintsUsed := 0 } }

/-- The summary produced after `twoMilestoneOps`. -/
def twoSummary : MilestonesSummary :=
  { count := 2, milestones := [mOne, mTwo], firstMilestone := mOne, lastMilestone := mTwo }

/-- A valid result with no `sessionId` (rejected by `sendResult`). -/
def noSessionRes : GameRes := { smallRes with sessionId := none }

/-- A second concrete small valid result (for hypothesis witnesses). -/
def smallRes2 : GameRes := { smallRes with rating := "A", score := 9 }

/-- A concrete query string: a difficulty override plus a regioned
language parameter. -/
def qsW : Query := [("difficulty", "3"), ("lang", "EN-US")]

/-! ## Helper lemmas -/

/-- `gradeRank ∘ getRating` as a threshold formula. -/
theorem gradeRank_getRating (p : ℚ) :
    gradeRank (getRating p) =
      if p ≥ 95 then 5 else if p ≥ 85 then 4 else if p ≥ 75 then 3
      else if p ≥ 60 then 2 else if p ≥ 40 then 1 else 0 := by
  unfold getRating
  split_ifs <;> rfl

/-- Ratings of arguments below the lowest threshold agree with the
rating of `0`. -/
theorem getRating_neg (p : ℚ) (h : p < 0) : getRating p = "F" := by
  unfold getRating
  split_ifs <;> first | rfl | linarith

/-- Clamping into `[0, 100]` does not change the rating of a raw
performance value that is already at most `100`. -/
theorem getRating_clamp (p : ℚ) (hle : p ≤ 100) :
    getRating (min 100 (max 0 p)) = getRating p := by
  rcases le_or_lt 0 p with h | h
  · rw [max_eq_right h, min_eq_right hle]
  · rw [max_eq_left h.le, min_eq_right (by norm_num : (0 : ℚ) ≤ 100)]
    rw [getRating_neg p h]
    rfl

/-- The raw performance value is never above `100`. -/
theorem performanceRaw_le (score : ℚ) (o : Option ℚ) :
    (match o with
     | some q => if q ≠ 0 then min 100 (score / q * 100) else (100 : ℚ)
     | none => (100 : ℚ)) ≤ 100 := by
  cases o with
  | none => exact le_refl _
  | some q =>
      dsimp only
      split_ifs
      · exact min_le_left _ _
      · exact le_refl _

/-! ## C10 -/

/-- C10: `getRating` is total and monotone - every rational performance
value is mapped to one of the six grades `S`, `A`, `B`, `C`, `D`, `F`,
and `p1 ≤ p2` implies the grade of `p1` is at most the grade of `p2`
under the ordering F < D < C < B < A < S. -/
theorem C10_getRating_total_monotone :
    (∀ p : ℚ, getRating p ∈ (["S", "A", "B", "C", "D", "F"] : List String))
    ∧ (∀ p q : ℚ, p ≤ q → gradeRank (getRating p) ≤ gradeRank (getRating q)) := by
  constructor
  · intro p
    unfold getRating
    split_ifs <;> simp
  · intro p q hpq
    rw [gradeRank_getRating, gradeRank_getRating]
    split_ifs <;> first | (exfalso; linarith) | norm_num

/-- C10 witness: the monotonicity conjunct applied at `50 ≤ 97`. -/
theorem C10_witness :
    ((50 : ℚ) ≤ 97) ∧ gradeRank (getRating 50) ≤ gradeRank (getRating 97) :=
  ⟨by norm_num, C10_getRating_total_monotone.2 50 97 (by norm_num)⟩

/-! ## C9 -/

/-- C9: every result built by `generateResult` has its `performance`
field inside `[0, 100]`, and its `rating` field equals `getRating`
applied to that `performance` field (the code computes the rating from
the raw, unclamped value, but clamping never changes the grade because
the raw value is already at most 100 and every negative value grades
`F`). -/
theorem C9_generateResult_performance_rating
    (success : Bool) (st : GameState) (cfg : Config) (optimalScore : Option ℚ)
    (ms : List Milestone) (optimal : Bool) (ach : List String) (nowIso : String) :
    0 ≤ (generateResult success st cfg optimalScore ms optimal ach nowIso).performance
    ∧ (generateResult success st cfg optimalScore ms optimal ach nowIso).performance ≤ 100
    ∧ (generateResult success st cfg optimalScore ms optimal ach nowIso).rating
        = getRating (generateResult success st cfg optimalScore ms optimal ach nowIso).performance := by
  refine ⟨?_, ?_, ?_⟩
  · exact le_min (by norm_num) (le_max_left _ _)
  · exact min_le_left _ _
  · exact (getRating_clamp _ (performanceRaw_le st.score optimalScore)).symm

/-! ## C6 -/

/-- One step preserves membership of the status in the five-value
enum. -/
theorem step_status_mem (g : Game) (op : Op)
    (h : g.state.status ∈ (["idle", "playing", "paused", "completed", "failed"] : List String)) :
    (step g op).state.status ∈ (["idle", "playing", "paused", "completed", "failed"] : List String) := by
  cases op with
  | start now => simp [step, startStep]
  | ende s now =>
      cases s <;> simp [step, endStep]
  | recordMilestone nm now => simpa [step, recordStep] using h
  | handleExit c now =>
      by_cases hp : g.state.status = "playing"
      · cases c <;> simp [step, exitStep, hp, endStep]
      · simpa [step, exitStep, hp] using h

/-- Status invariant of every run. -/
theorem run_status_mem (ops : List Op) :
    (run ops).state.status ∈ (["idle", "playing", "paused", "completed", "failed"] : List String) := by
  suffices h : ∀ (l : List Op) (g : Game),
      g.state.status ∈ (["idle", "playing", "paused", "completed", "failed"] : List String) →
      (l.foldl step g).state.status ∈ (["idle", "playing", "paused", "completed", "failed"] : List String) by
    exact h ops initGame (by simp [initGame, initState])
  intro l
  induction l with
  | nil => intro g hg; simpa using hg
  | cons op rest ih =>
      intro g hg
      exact ih (step g op) (step_status_mem g op hg)

/-- C6: the session status is always one of the five enum values
`'idle'`, `'playing'`, `'paused'`, `'completed'`, `'failed'`; it is
`'idle'` after construction, `start()` sets it to `'playing'`,
`end(success)` sets it to `'completed'` exactly when `success` holds and
to `'failed'` otherwise, `recordMilestone` leaves it unchanged, and
`handleExit` either leaves it unchanged or (confirmed exit while
playing) changes it exactly by calling `end(false)`. -/
theorem C6_status_enum :
    initGame.state.status = "idle"
    ∧ (∀ ops : List Op,
        (run ops).state.status ∈ (["idle", "playing", "paused", "completed", "failed"] : List String))
    ∧ (∀ (g : Game) (now : ℕ), (step g (Op.start now)).state.status = "playing")
    ∧ (∀ (g : Game) (s : Bool) (now : ℕ),
        (step g (Op.ende s now)).state.status = if s then "completed" else "failed")
    ∧ (∀ (g : Game) (nm : String) (now : ℕ),
        (step g (Op.recordMilestone nm now)).state.status = g.state.status)
    ∧ (∀ (g : Game) (c : Bool) (now : ℕ),
        (step g (Op.handleExit c now)).state.status
          = if g.state.status = "playing" ∧ c = true then
              (step g (Op.ende false now)).state.status
            else g.state.status) := by
  refine ⟨rfl, run_status_mem, ?_, ?_, ?_, ?_⟩
  · intro g now; rfl
  · intro g s now; cases s <;> rfl
  · intro g nm now; rfl
  · intro g c now
    by_cases hp : g.state.status = "playing"
    · cases c <;> simp [step, exitStep, hp, endStep]
    · have hc : ¬ (g.state.status = "playing" ∧ c = true) := fun h => hp h.1
      rw [if_neg hc]
      cases c <;> simp [step, exitStep, hp]

/-! ## C7 -/

/-- Properties of `getMilestonesSummary` over any milestone list. -/
theorem getMilestonesSummary_some (ms : List Milestone) (s : MilestonesSummary)
    (h : getMilestonesSummary ms = some s) :
    s.count = ms.length ∧ s.milestones = ms
    ∧ ∃ hne : ms ≠ [], s.firstMilestone = ms.head hne ∧ s.lastMilestone = ms.getLast hne := by
  cases ms with
  | nil => simp [getMilestonesSummary] at h
  | cons m rest =>
      simp only [getMilestonesSummary, Option.some.injEq] at h
      subst h
      refine ⟨rfl, rfl, by simp, rfl, rfl⟩

/-- `getMilestonesSummary` is `null` exactly on the empty list. -/
theorem getMilestonesSummary_none_iff (ms : List Milestone) :
    getMilestonesSummary ms = none ↔ ms = [] := by
  cases ms <;> simp [getMilestonesSummary]

/-- Each run records exactly one milestone per `recordMilestone`
operation. -/
theorem run_milestones_length (ops : List Op) :
    (run ops).milestones.length = ops.countP isRecordOp := by
  suffices h : ∀ (l : List Op) (g : Game),
      (l.foldl step g).milestones.length = g.milestones.length + l.countP isRecordOp by
    simpa [initGame] using h ops initGame
  intro l
  induction l with
  | nil => intro g; simp
  | cons op rest ih =>
      intro g
      rw [List.foldl_cons, ih (step g op), List.countP_cons]
      cases op <;> simp [step, startStep, endStep, recordStep, exitStep, isRecordOp] <;>
        first
        | omega
        | (split_ifs <;> simp [endStep])

/-- C7: `getMilestonesSummary` returns `null` exactly when no milestone
has been recorded; otherwise the summary's `count` equals the number of
`recordMilestone` calls made so far, its `milestones` field is the full
recorded list (each call appends at the end, so the list is in recording
order), and `firstMilestone`/`lastMilestone` are the first and the most
recently recorded milestone. -/
theorem C7_milestones_summary :
    (∀ ops : List Op,
        (getMilestonesSummary (run ops).milestones = none ↔ ops.countP isRecordOp = 0))
    ∧ (∀ (ops : List Op) (s : MilestonesSummary),
        getMilestonesSummary (run ops).milestones = some s →
          s.count = ops.countP isRecordOp
          ∧ s.milestones = (run ops).milestones
          ∧ ∃ hne : (run ops).milestones ≠ [],
              s.firstMilestone = (run ops).milestones.head hne
              ∧ s.lastMilestone = (run ops).milestones.getLast hne)
    ∧ (∀ (g : Game) (nm : String) (now : ℕ),
        (step g (Op.recordMilestone nm now)).milestones
          = g.milestones ++ [mkMilestone nm now g.state]) := by
  refine ⟨?_, ?_, ?_⟩
  · intro ops
    rw [getMilestonesSummary_none_iff, ← run_milestones_length ops, List.length_eq_zero]
  · intro ops s h
    obtain ⟨hc, hm, hne, hf, hl⟩ := getMilestonesSummary_some _ _ h
    exact ⟨by rw [hc, run_milestones_length], hm, hne, hf, hl⟩
  · intro g nm now; rfl

/-- C7 witness: after a start and two recorded milestones the summary is
`twoSummary`, whose count is the number of `recordMilestone` calls and
whose list is the recorded list. -/
theorem C7_witness :
    twoSummary.count = twoMilestoneOps.countP isRecordOp
    ∧ twoSummary.milestones = (run twoMilestoneOps).milestones := by
  have h := C7_milestones_summary.2.1 twoMilestoneOps twoSummary (by decide)
  exact ⟨h.1, h.2.1⟩

/-! ## C8 -/

/-- C8: a result with a falsy `sessionId` or a falsy `gameId` is
rejected at the top of `sendResult`: the trace is exactly the entry log
plus one error log, so nothing reaches `tg.sendData`, nothing is written
to `localStorage` and no alert is shown.  (`sendResult` never touches
`this.state` or `this.milestones`; it is embedded as a pure function of
the result and environment, so session state is untouched by
construction.) -/
theorem C8_invalid_result_silently_rejected (r : GameRes) (env : SendEnv)
    (h : validResult r = false) :
    sendResult r env
      = [Effect.log "Sending result",
         Effect.errorLog "Invalid result: missing sessionId or gameId"]
    ∧ (sendResult r env).countP isSendDataE = 0
    ∧ (sendResult r env).countP isStorageE = 0
    ∧ (sendResult r env).countP isAlertE = 0 := by
  have he : sendResult r env
      = [Effect.log "Sending result",
         Effect.errorLog "Invalid result: missing sessionId or gameId"] := by
    simp [sendResult, h]
  refine ⟨he, ?_, ?_, ?_⟩ <;> rw [he] <;> rfl

/-- C8 witness: the rejection applied to a concrete result without a
`sessionId`. -/
theorem C8_witness :
    validResult noSessionRes = false
    ∧ sendResult noSessionRes envSend
        = [Effect.log "Sending result",
           Effect.errorLog "Invalid result: missing sessionId or gameId"] :=
  ⟨by decide, (C8_invalid_result_silently_rejected noSessionRes envSend (by decide)).1⟩

/-! ## Oversized-payload machinery (C1, C4) -/

/-- Escaping a block of `'a'`s is the identity. -/
theorem escListJoin_repA (n : ℕ) :
    escListJoin (List.replicate n 'a') = repA n := by
  induction n with
  | zero => rfl
  | succ k ih =>
      show escapeChar 'a' ++ escListJoin (List.replicate k 'a') = _
      rw [ih]; rfl

/-- Length of a block of `'a'`s. -/
theorem repA_length (n : ℕ) : (repA n).length = n := by
  simp [repA, String.length]

/-- Length of the JSON quotation of a block of `'a'`s. -/
theorem jsonQuote_repA_length (n : ℕ) : (jsonQuote (repA n)).length = n + 2 := by
  show ("\"" ++ escListJoin (String.toList (repA n)) ++ "\"").length = n + 2
  have ht : String.toList (repA n) = List.replicate n 'a' := rfl
  rw [ht, escListJoin_repA, String.length_append, String.length_append, repA_length]
  have h1 : ("\"" : String).length = 1 := rfl
  omega

/-- The concrete result `bigRes` exceeds the 4096-byte ceiling. -/
theorem bigRes_oversized : (jsonStringify (compactResultJson bigRes)).length > 4096 := by
  have h : compactResultJson bigRes = Json.obj
      [("sessionId", Json.str "sess1"), ("gameId", Json.str "hanoi"),
       ("gameName", Json.str (repA 4200)),
       ("userId", Json.null), ("timestamp", Json.str "2026-01-01T00:00:00.000Z"),
       ("success", Json.bool true), ("status", Json.str "completed"),
       ("score", Json.num 10), ("finalScore", Json.num 10),
       ("moves", Json.num 7), ("mistakes", Json.num 0), ("hintsUsed", Json.num 0),
       ("timeElapsed", Json.num 5), ("timeLimit", Json.null),
       ("timeRemaining", Json.null), ("performance", Json.num 100),
       ("rating", Json.str "S"), ("difficulty", Json.num 1),
       ("language", Json.str "en"), ("optimal", Json.bool false),
       ("achievements", Json.arr []), ("milestoneCount", Json.num 0)] := rfl
  rw [h]
  simp only [jsonStringify, jsonStringifyFields, jsonStringifyList, String.length_append]
  rw [jsonQuote_repA_length]
  decide

/-- The trace of the current `sendResult` on every valid oversized
result: the oversize error is logged and the `const` re-assignment
`TypeError` lands in the `catch` block (error-keyed `localStorage`
record plus recovery alert). -/
theorem sendResult_oversized_eq (r : GameRes) (env : SendEnv)
    (hv : validResult r = true)
    (hbig : (jsonStringify (compactResultJson r)).length > 4096) :
    sendResult r env
      = [Effect.log "Sending result", Effect.log "Result size",
         Effect.errorLog "Result too large"] ++ catchTrace r env := by
  simp [sendResult, hv, hbig]

/-! ## C1 -/

/-- C1: for every valid result whose compact serialization exceeds 4096
bytes, `sendResult` handles the oversized payload entirely locally: it
logs the oversize error and degrades to the local-storage fallback with
a user-facing alert (through its own `catch` block, because the
attempted ultra-compact substitution re-assigns the `const`
`resultString` and throws a `TypeError` that the `catch` absorbs).  The
equation shows the whole trace: no exception escapes (`sendResult` is a
total function into effect traces), a `localStorage` record is written
and an alert is shown, and nothing is handed to `tg.sendData`. -/
theorem C1_oversized_handled_locally (r : GameRes) (env : SendEnv)
    (hv : validResult r = true)
    (hbig : (jsonStringify (compactResultJson r)).length > 4096) :
    sendResult r env
      = [Effect.log "Sending result", Effect.log "Result size",
         Effect.errorLog "Result too large"] ++ catchTrace r env
    ∧ (sendResult r env).countP isSendDataE = 0
    ∧ (sendResult r env).countP isStorageE = 1
    ∧ (sendResult r env).countP isAlertE = 1 := by
  have he := sendResult_oversized_eq r env hv hbig
  refine ⟨he, ?_, ?_, ?_⟩ <;> rw [he] <;> rfl

/-- C1 witness: the oversized path taken at the concrete result
`bigRes`. -/
theorem C1_witness :
    validResult bigRes = true
    ∧ (jsonStringify (compactResultJson bigRes)).length > 4096
    ∧ sendResult bigRes envSend
        = [Effect.log "Sending result", Effect.log "Result size",
           Effect.errorLog "Result too large"] ++ catchTrace bigRes envSend :=
  ⟨by decide, bigRes_oversized,
   (C1_oversized_handled_locally bigRes envSend (by decide) bigRes_oversized).1⟩

/-! ## C4 -/

/-- C4 counterexample: with the bridge's `sendData` unavailable but an
oversized (valid) result, `sendResult` does not reach the claimed
fallback: nothing is stored under `game_result_latest` nor under the
session-specific key (the `catch` block stores an error record under
`game_result_error_<now>` instead). -/
theorem C4_counterexample :
    envNoSend.tgHasSendData = false
    ∧ validResult bigRes = true
    ∧ (sendResult bigRes envNoSend).countP (writesKey "game_result_latest") = 0
    ∧ (sendResult bigRes envNoSend).countP
        (writesKey ("game_result_" ++ jsTemplateStr envNoSend.configSessionId)) = 0 := by
  have he := sendResult_oversized_eq bigRes envNoSend (by decide) bigRes_oversized
  refine ⟨rfl, by decide, ?_, ?_⟩ <;> rw [he] <;> rfl

/-- C4 (amended): when the bridge lacks `sendData`, the result is valid
(truthy `sessionId` and `gameId`) and the compact serialization is
within 4096 bytes, `sendResult` degrades to the local-storage fallback:
it stores the serialized result under both the session-specific key and
`game_result_latest` and shows the completion alert (and, being a total
function into effect traces, never lets an exception escape). -/
theorem C4_no_bridge_localstorage_fallback (r : GameRes) (env : SendEnv)
    (hns : env.tgHasSendData = false)
    (hv : validResult r = true)
    (hsmall : (jsonStringify (compactResultJson r)).length ≤ 4096) :
    sendResult r env
      = [Effect.log "Sending result", Effect.log "Result size",
         Effect.log "Result validated",
         Effect.warn "Telegram.WebApp.sendData() not available",
         Effect.log "Saving to localStorage instead",
         Effect.storageSet ("game_result_" ++ jsTemplateStr env.configSessionId)
           (jsonStringify (compactResultJson r)),
         Effect.storageSet "game_result_latest" (jsonStringify (compactResultJson r)),
         Effect.alertShow "Game completed! Result saved to localStorage (testing mode)"] := by
  have hnb : ¬ ((jsonStringify (compactResultJson r)).length > 4096) := not_lt.mpr hsmall
  simp [sendResult, hv, hns, hnb]

set_option maxRecDepth 8000 in
/-- C4 witness: the fallback taken at the concrete small result. -/
theorem C4_witness :
    envNoSend.tgHasSendData = false
    ∧ validResult smallRes = true
    ∧ (jsonStringify (compactResultJson smallRes)).length ≤ 4096
    ∧ sendResult smallRes envNoSend
        = [Effect.log "Sending result", Effect.log "Result size",
           Effect.log "Result validated",
           Effect.warn "Telegram.WebApp.sendData() not available",
           Effect.log "Saving to localStorage instead",
           Effect.storageSet ("game_result_" ++ jsTemplateStr envNoSend.configSessionId)
             (jsonStringify (compactResultJson smallRes)),
           Effect.storageSet "game_result_latest" (jsonStringify (compactResultJson smallRes)),
           Effect.alertShow "Game completed! Result saved to localStorage (testing mode)"] :=
  ⟨rfl, by decide, by decide,
   C4_no_bridge_localstorage_fallback smallRes envNoSend rfl (by decide) (by decide)⟩

/-! ## C2 -/

/-- C2 counterexample: one execution of the legacy `part_000`
`sendResult` (bridge accepting the payload) hands the very same payload
to `tg.sendData` twice. -/
theorem C2_counterexample :
    (Part000.sendResult smallRes envPart000).countP isSendDataE = 2 := by
  simp [Part000.sendResult, envPart000, List.countP_append, List.countP_cons,
    isSendDataE, strOptTruthy]

/-- C2 (amended): the current `game-interface.js` `sendResult` and the
`game-interface_working.js` variant invoke `tg.sendData` at most once
per execution and never retry; the legacy `part_000` variant instead
hands the payload to `tg.sendData` twice whenever the bridge accepts it
(and, when the first call throws, tries the same send again). -/
theorem C2_sendData_at_most_once :
    (∀ (r : GameRes) (env : SendEnv), (sendResult r env).countP isSendDataE ≤ 1)
    ∧ (∀ (r : GameRes) (env : SendEnv), (Working.sendResult r env).countP isSendDataE ≤ 1)
    ∧ (∀ (r : GameRes) (env : Part000.SendEnv), env.sendDataOk = true →
        (Part000.sendResult r env).countP isSendDataE = 2) := by
  refine ⟨?_, ?_, ?_⟩
  · intro r env
    simp only [sendResult]
    split_ifs <;>
      simp [catchTrace, List.countP_append, List.countP_cons, isSendDataE]
  · intro r env
    simp only [Working.sendResult]
    split_ifs <;>
      simp [List.countP_append, List.countP_cons, isSendDataE]
  · intro r env hok
    simp only [Part000.sendResult]
    split_ifs <;>
      simp [hok, List.countP_append, List.countP_cons, isSendDataE]

/-- C2 witness: the `part_000` double-send conjunct applied at a second
concrete result. -/
theorem C2_witness :
    envPart000.sendDataOk = true
    ∧ (Part000.sendResult smallRes2 envPart000).countP isSendDataE = 2 :=
  ⟨rfl, C2_sendData_at_most_once.2.2 smallRes2 envPart000 rfl⟩

/-! ## C5 -/

/-- C5: the result-sending paths never close the host window
synchronously, schedule at most one (delayed, fire-and-forget)
`tg.close()` and start at most one network request - so the delayed
close and an optional network request are the only asynchronous effects
a `sendResult` execution initiates.  The current `game-interface.js`
version initiates no asynchronous effect at all after handing the
payload to `tg.sendData`; in `game-interface_working.js` a successful
handoff is followed exactly by the `setTimeout(..., 1500)` close. -/
theorem C5_async_only_delayed_close_and_fetch :
    (∀ (r : GameRes) (env : SendEnv),
        (sendResult r env).countP isCloseNowE = 0
        ∧ (sendResult r env).countP isScheduleCloseE = 0
        ∧ (sendResult r env).countP isFetchE = 0)
    ∧ (∀ (r : GameRes) (env : SendEnv),
        (Working.sendResult r env).countP isCloseNowE = 0
        ∧ (Working.sendResult r env).countP isFetchE = 0
        ∧ (Working.sendResult r env).countP isScheduleCloseE ≤ 1
        ∧ (validResult r = true → env.tgHasSendData = true →
            Effect.sendData (jsonStringify (fullResultJson r)) ∈ Working.sendResult r env
            ∧ Effect.scheduleClose 1500 ∈ Working.sendResult r env))
    ∧ (∀ (r : GameRes) (env : Part000.SendEnv),
        (Part000.sendResult r env).countP isCloseNowE = 0
        ∧ (Part000.sendResult r env).countP isFetchE ≤ 1
        ∧ (Part000.sendResult r env).countP isScheduleCloseE ≤ 1) := by
  refine ⟨?_, ?_, ?_⟩
  · intro r env
    refine ⟨?_, ?_, ?_⟩ <;>
      · simp only [sendResult]
        split_ifs <;>
          simp [catchTrace, List.countP_append, List.countP_cons,
            isCloseNowE, isScheduleCloseE, isFetchE]
  · intro r env
    refine ⟨?_, ?_, ?_, ?_⟩
    · simp only [Working.sendResult]
      split_ifs <;>
        simp [List.countP_append, List.countP_cons, isCloseNowE]
    · simp only [Working.sendResult]
      split_ifs <;>
        simp [List.countP_append, List.countP_cons, isFetchE]
    · simp only [Working.sendResult]
      split_ifs <;>
        simp [List.countP_append, List.countP_cons, isScheduleCloseE]
    · intro hv hs
      simp [Working.sendResult, hv, hs]
  · intro r env
    refine ⟨?_, ?_, ?_⟩ <;>
      · simp only [Part000.sendResult]
        split_ifs <;>
          simp [List.countP_append, List.countP_cons,
            isCloseNowE, isScheduleCloseE, isFetchE]

/-- C5 witness: the successful-handoff conjunct of the
`game-interface_working.js` variant at a concrete input. -/
theorem C5_witness :
    Effect.sendData (jsonStringify (fullResultJson smallRes)) ∈ Working.sendResult smallRes envSend
    ∧ Effect.scheduleClose 1500 ∈ Working.sendResult smallRes envSend :=
  (C5_async_only_delayed_close_and_fetch.2.1 smallRes envSend).2.2.2 (by decide) rfl

/-! ## C3 -/

/-- `urlParams.get('lang') || urlParams.get('language')` is `null`
exactly when `language` is absent and `lang` is absent or empty. -/
theorem jsOrStr_eq_none (a b : Option String) :
    jsOrStr a b = none ↔ ((a = none ∨ a = some "") ∧ b = none) := by
  cases a with
  | none => simp [jsOrStr]
  | some s =>
      by_cases hs : s = ""
      · subst hs; simp [jsOrStr]
      · simp [jsOrStr, hs]

/-- Outside the crashing corner case, the pre-normalisation language is
the `||`-coalescing of the two parameters when either is present,
otherwise the user's truthy `language_code` (with `'en'` default) when a
user record exists, otherwise the incoming config language. -/
theorem langBeforeNormalize_eq (cLang : String) (qs : Query) (user : Option TgUser)
    (h : ¬ (qGet qs "lang" = some "" ∧ qGet qs "language" = none)) :
    langBeforeNormalize cLang qs user =
      some (if qHas qs "lang" || qHas qs "language" then
              match jsOrStr (qGet qs "lang") (qGet qs "language") with
              | some s => s
              | none => "en"
            else
              match user with
              | some u => jsOrDefault u.language_code "en"
              | none => cLang) := by
  have hcoal : (qHas qs "lang" || qHas qs "language") = true →
      ∃ s, jsOrStr (qGet qs "lang") (qGet qs "language") = some s := by
    intro hb
    cases hj : jsOrStr (qGet qs "lang") (qGet qs "language") with
    | some s => exact ⟨s, rfl⟩
    | none =>
        exfalso
        obtain ⟨ha, hbn⟩ := (jsOrStr_eq_none _ _).mp hj
        rcases ha with ha | ha
        · simp [qHas, ha, hbn] at hb
        · exact h ⟨ha, hbn⟩
  unfold langBeforeNormalize
  cases user with
  | none =>
      dsimp only
      by_cases hb : (qHas qs "lang" || qHas qs "language") = true
      · obtain ⟨s, hs⟩ := hcoal hb
        simp [hb, hs]
      · simp at hb
        simp [hb]
  | some u =>
      dsimp only
      by_cases hnl : (¬ (qHas qs "lang" = true) ∧ ¬ (qHas qs "language" = true))
      · have hb : (qHas qs "lang" || qHas qs "language") = false := by
          simp [hnl.1, hnl.2]
        rw [if_pos]
        · simp [hb]
        · constructor <;> simp [hnl.1, hnl.2]
      · have hb : (qHas qs "lang" || qHas qs "language") = true := by
          rcases not_and_or.mp hnl with hx | hx <;> simp at hx <;> simp [hx]
        obtain ⟨s, hs⟩ := hcoal hb
        rw [if_neg]
        · simp [hb, hs]
        · exact hnl

/-- C3 (amended): from the constructor configuration, whenever it is not
the case that `lang` is present with an empty value while `language` is
absent (in that corner case `parseInputParams` throws a `TypeError`,
see `C3_counterexample`), `parseInputParams` yields exactly the
configuration described by the claim: the constructor defaults
overridden pointwise by the present parameters - `difficulty`,
`timeLimit`, `hints` via `parseInt`; `timeModifier`, `scoreModifier` via
`parseFloat`; `sessionId` verbatim - a truthy `timeLimit` then replaced
by `floor(timeLimit * timeModifier)`, and the language taken as
`get('lang') || get('language')` (an empty `lang` falling through to
`language`) when either parameter is present, otherwise the user's
truthy `language_code`, otherwise `'en'`, then truncated at the first
`'-'` and lowercased. -/
theorem C3_parseInputParams_refines_spec (gid gname : Option String)
    (qs : Query) (user : Option TgUser)
    (h : ¬ (qGet qs "lang" = some "" ∧ qGet qs "language" = none)) :
    parseInputParams (initConfig gid gname) qs user
      = Except.ok (specParseConfig (initConfig gid gname) qs user) := by
  unfold parseInputParams
  rw [langBeforeNormalize_eq _ qs user h]
  rfl

/-- C3 counterexample: on the query string `?lang=` (the `lang`
parameter present and empty, `language` absent) the code crashes with a
`TypeError` - `urlParams.get('lang') || urlParams.get('language')`
evaluates to `null` and the subsequent `split('-')` dereferences it - so
`parseInputParams` yields no configuration at all. -/
theorem C3_counterexample :
    parseInputParams (initConfig (some "hanoi") none) [("lang", "")] none
      = Except.error JSErr.typeError := rfl

/-- C3 witness: the refinement applied at a concrete query string with a
difficulty override and a regioned language parameter, plus the
evaluated language and difficulty of the resulting configuration. -/
theorem C3_witness :
    (¬ (qGet qsW "lang" = some "" ∧ qGet qsW "language" = none))
    ∧ parseInputParams (initConfig (some "hanoi") none) qsW
        (some { id := 77, language_code := some "ru" })
      = Except.ok (specParseConfig (initConfig (some "hanoi") none) qsW
        (some { id := 77, language_code := some "ru" }))
    ∧ (specParseConfig (initConfig (some "hanoi") none) qsW
        (some { id := 77, language_code := some "ru" })).language = "en"
    ∧ (specParseConfig (initConfig (some "hanoi") none) qsW
        (some { id := 77, language_code := some "ru" })).difficulty = JNum.num 3 :=
  ⟨by decide,
   C3_parseInputParams_refines_spec (some "hanoi") none qsW
     (some { id := 77, language_code := some "ru" }) (by decide),
   by decide, by decide⟩
